import Mathlib

/-!
Verification of the LandCare-AI asynchronous forecasting layer.

This file shallowly embeds, in Lean 4, the task-orchestration code of
`backend/routes/forecasting.py` (submission, background worker, status
polling), the forecast engine of `backend/forecasting.py`
(`forecast_ndvi`, `forecast_weather`) and the computation cache of
`backend/models.py` (`get_cached_historical_data`,
`get_cached_arima_model`, `save_cached_arima_model`), and proves or
refutes the specification claims about them.

External collaborators (the event-loop clock, Google Earth Engine, the
statsmodels fit/forecast capability, the Supabase client, `hashlib.md5`,
`pd.to_numeric` string parsing) are modelled as oracle parameters; the
control flow, state updates and data shapes are translated line by line
from the Python source.
-/

set_option autoImplicit false

namespace LandCare

/-! ## Task orchestration (`backend/routes/forecasting.py`)

The module-level dict `background_tasks_store` maps a task id to a plain
dict.  Each write in the source replaces the whole dict for the task id,
so an entry is exactly the last written record.  The statuses that ever
appear in the source are `processing`, `completed` and `failed` — no
`pending` record is ever written. -/

/-- Task status strings written into `background_tasks_store`. -/
inductive TStatus where
  | processing
  | completed
  | failed
deriving DecidableEq, Repr

/-- A stored result dict: `{**forecast_result, 'method_used': 'ml',
'fallback_used': False}` (lines 76-84).  The forecast payload itself is
opaque to the orchestrator, modelled by a `Nat` identifier. -/
structure StoredResult where
  payload : Nat
  method_used : String
  fallback_used : Bool
deriving DecidableEq, Repr

/-- One value of `background_tasks_store[task_id]`: a dict whose keys may
or may not be present, modelled as optional fields.  Every write in
`run_ml_forecast_background` replaces the whole record. -/
structure TaskEntry where
  status : TStatus
  error : Option String := none
  result : Option StoredResult := none
  start_time : Option Int := none
  end_time : Option Int := none
deriving DecidableEq, Repr

/-- The global `background_tasks_store` dict. -/
def Store := List (String × TaskEntry)

instance : DecidableEq Store := by
  unfold Store
  infer_instance

/-- Dict lookup `background_tasks_store.get(task_id)`. -/
def storeLookup (s : Store) (k : String) : Option TaskEntry :=
  match s with
  | [] => none
  | (k₀, v₀) :: rest => if k₀ = k then some v₀ else storeLookup rest k

/-- Dict assignment `background_tasks_store[task_id] = entry` (replaces
any previous entry under the key). -/
def storeSet (s : Store) (k : String) (v : TaskEntry) : Store :=
  match s with
  | [] => [(k, v)]
  | (k₀, v₀) :: rest =>
      if k₀ = k then (k, v) :: rest else (k₀, v₀) :: storeSet rest k v

/-- Python: `task_id = f"veg_forecast_{int(time.time())}_{hash(str(geometry)) % 10000}"`
(line 115).  `sec` is `int(time.time())`, `ghash` is Python's
process-stable `hash(str(geometry))`; Python `%` on a positive modulus
agrees with `Int.emod`. -/
def mkTaskId (sec : Nat) (ghash : Int) : String :=
  "veg_forecast_" ++ toString sec ++ "_" ++ toString (ghash % 10000)

/-- The JSON body returned by a successful `forecast_vegetation` call. -/
structure SubmitResp where
  task_id : String
  status : String
  message : String
  periods : List Int
  fallback_enabled : Bool
deriving DecidableEq, Repr

/-- An `HTTPException(status_code, detail)`. -/
structure HErr where
  status_code : Nat
  detail : String
deriving DecidableEq, Repr

/-- Route `forecast_vegetation` (lines 94-132): validates `periods`, builds the
task id, schedules the background task and returns; the store is not
written (the worker performs the first write later).  The request schema
(`VegetationForecastRequest`) already guarantees `periods` is a list of
ints, so the `isinstance` half of the check (line 107) is always true. -/
def forecast_vegetation (periods : List Int) (use_fallback : Bool)
    (sec : Nat) (ghash : Int) (store : Store) :
    Except HErr (SubmitResp × Store) :=
  if periods = [] then
    .error ⟨400, "Periods must be a non-empty list of integers"⟩
  else if periods.any (fun p => p > 24) then
    .error ⟨400, "Maximum forecast period is 24 months"⟩
  else
    .ok ({ task_id := mkTaskId sec ghash
         , status := "accepted"
         , message := "Vegetation forecasting task started"
         , periods := periods
         , fallback_enabled := use_fallback }, store)

/-! ### The background worker `run_ml_forecast_background` (lines 18-91)

Each external call may either return a value or raise; both are modelled
in the oracle.  `Except.error e` stands for a raised exception with
`str(e) = e`. -/

/-- Outcomes of the external calls made by the worker, plus the two
event-loop clock readings it uses. -/
structure RunOracle where
  /-- `asyncio.get_event_loop().time()` at the `processing` write. -/
  tStart : Int
  /-- `asyncio.get_event_loop().time()` at the terminal write. -/
  tEnd : Int
  /-- `initialize_gee()`: returns a bool or raises. -/
  geeInit : Except String Bool
  /-- `ee.Geometry.Polygon(geometry['coordinates'])`: may raise. -/
  mkRoi : Except String Unit
  /-- `GEEForecaster(...)` construction: may raise. -/
  mkForecaster : Except String Unit
  /-- `forecaster.train_models(...)`: raises, or returns a dict that
  contains `'error'` (`some msg`) or does not (`none`). -/
  train : Except String (Option String)
  /-- `forecaster.forecast(periods)`: raises, or returns an error dict
  (`.inl msg`) or a forecast payload (`.inr payload`). -/
  fc : Except String (String ⊕ Nat)
  /-- `db.save_forecast(...)`: may raise (swallowed by the inner
  try/except, lines 65-73). -/
  dbSave : Except String Unit

/-- The `processing` record written on entry (line 21). -/
def processingEntry (t : Int) : TaskEntry :=
  { status := .processing, start_time := some t }

/-- A `failed` record as written by every failure branch: whole-dict
replacement carrying only `status`, `error` and `end_time`. -/
def failedEntry (msg : String) (t : Int) : TaskEntry :=
  { status := .failed, error := some msg, end_time := some t }

/-- The `completed` record (lines 76-84): whole-dict replacement carrying
only `status`, `result` and `end_time`. -/
def completedEntry (payload : Nat) (t : Int) : TaskEntry :=
  { status := .completed
  , result := some { payload := payload, method_used := "ml", fallback_used := false }
  , end_time := some t }

/-- Body of the worker after the `processing` write, translated
branch by branch (lines 22-84).  Returns the terminal record it writes;
`Except.error e` is an exception escaping the body, to be caught by the
outer `except` (lines 86-91). -/
def runBody (o : RunOracle) : Except String TaskEntry :=
  match o.geeInit with
  | .error e => .error e
  | .ok ok =>
    if !ok then
      .ok (failedEntry "Google Earth Engine initialization failed" o.tEnd)
    else
      match o.mkRoi with
      | .error e => .error e
      | .ok _ =>
        match o.mkForecaster with
        | .error e => .error e
        | .ok _ =>
          match o.train with
          | .error e => .error e
          | .ok (some msg) =>
              .ok (failedEntry ("Model training failed: " ++ msg) o.tEnd)
          | .ok none =>
            match o.fc with
            | .error e => .error e
            | .ok (.inl msg) =>
                .ok (failedEntry ("Forecasting failed: " ++ msg) o.tEnd)
            | .ok (.inr payload) =>
                -- `db.save_forecast` failure is swallowed (lines 72-73).
                .ok (completedEntry payload o.tEnd)

/-- Worker `run_ml_forecast_background`: the sequence of values successively
assigned to `background_tasks_store[task_id]`.  The outer try/except
converts any exception into a `failed` terminal write; nothing is ever
written after a terminal write. -/
def run_ml_forecast_background (o : RunOracle) : List TaskEntry :=
  match runBody o with
  | .ok w => [processingEntry o.tStart, w]
  | .error e => [processingEntry o.tStart, failedEntry e o.tEnd]

/-- Applying the worker's writes to the store. -/
def applyTrace (store : Store) (task_id : String) (tr : List TaskEntry) : Store :=
  tr.foldl (fun s e => storeSet s task_id e) store

/-! ### Status polling `get_forecast_status` (lines 135-158) -/

/-- How a status poll can fail: the 404 branch (line 142) or a Python
`KeyError` from an unguarded dict access. -/
inductive StatusErr where
  | notFound
  | keyError (field : String)
deriving DecidableEq, Repr

/-- The response dict built by `get_forecast_status`; absent keys are
`none`. -/
structure StatusResp where
  task_id : String
  status : TStatus
  result : Option StoredResult := none
  error : Option String := none
  start_time : Option Int := none
  end_time : Option Int := none
  duration : Option Int := none
deriving DecidableEq, Repr

/-- Route `get_forecast_status` (lines 135-158), translated access by access:
`task['result']` and `task['error']` raise `KeyError` when absent, and in
the `end_time` branch `task['end_time'] - task['start_time']` (line 156)
raises `KeyError` when `start_time` is absent. -/
def get_forecast_status (store : Store) (task_id : String) :
    Except StatusErr StatusResp := do
  let t ← match storeLookup store task_id with
    | none => .error .notFound
    | some t => pure t
  let res ← if t.status = .completed then
      match t.result with
      | none => .error (.keyError "result")
      | some r => pure (some r)
    else pure none
  let err ← if t.status = .failed then
      match t.error with
      | none => .error (.keyError "error")
      | some e => pure (some e)
    else pure none
  let st := t.start_time
  match t.end_time with
  | none =>
      pure { task_id := task_id, status := t.status, result := res, error := err
           , start_time := st }
  | some et =>
      match t.start_time with
      | none => .error (.keyError "start_time")
      | some s =>
          pure { task_id := task_id, status := t.status, result := res, error := err
               , start_time := st, end_time := some et, duration := some (et - s) }

/-! ## Calendar dates

`pd.Timestamp` values at day granularity, with the pieces of pandas date
arithmetic the engine uses: `DateOffset(months=1)` (add one month,
clamping the day to the target month's length) and
`pd.date_range(start, periods, freq='M')` (consecutive calendar
month-end dates, the first being the month-end of `start`'s month, which
is the first month-end on or after `start`). -/

/-- Gregorian leap year. -/
def isLeap (y : Nat) : Bool :=
  y % 4 = 0 && (y % 100 ≠ 0 || y % 400 = 0)

/-- Days in a month. -/
def daysInMonth (y m : Nat) : Nat :=
  if m = 2 then (if isLeap y then 29 else 28)
  else if m = 4 ∨ m = 6 ∨ m = 9 ∨ m = 11 then 30
  else 31

/-- A calendar date. -/
structure YMD where
  y : Nat
  m : Nat
  d : Nat
deriving DecidableEq, Repr

/-- The month after `(y, m)`. -/
def nextMonth (y m : Nat) : Nat × Nat :=
  if m = 12 then (y + 1, 1) else (y, m + 1)

/-- Pandas `date + pd.DateOffset(months=1)`: advance one month, clamping the
day-of-month. -/
def addMonthClamped (dt : YMD) : YMD :=
  let p := nextMonth dt.y dt.m
  ⟨p.1, p.2, min dt.d (daysInMonth p.1 p.2)⟩

/-- The last day of month `(y, m)`. -/
def monthEnd (y m : Nat) : YMD :=
  ⟨y, m, daysInMonth y m⟩

/-- Generates `p` consecutive month-end dates starting with month `(y, m)`. -/
def monthEndSeq (y m : Nat) : Nat → List YMD
  | 0 => []
  | n + 1 => monthEnd y m :: monthEndSeq (nextMonth y m).1 (nextMonth y m).2 n

/-- Pandas `pd.date_range(start=start, periods=p, freq='M')`: month-end dates;
the first one is the first month-end on or after `start`, i.e. the end of
`start`'s own month. -/
def dateRangeMonthEnd (start : YMD) (p : Nat) : List YMD :=
  monthEndSeq start.y start.m p

/-- Two-digit zero padding for `strftime`. -/
def pad2 (n : Nat) : String :=
  if n < 10 then "0" ++ toString n else toString n

/-- Four-digit zero padding for `strftime` years. -/
def pad4 (n : Nat) : String :=
  if n < 10 then "000" ++ toString n
  else if n < 100 then "00" ++ toString n
  else if n < 1000 then "0" ++ toString n
  else toString n

/-- Format `ts.strftime('%Y-%m-%d')`. -/
def dateStr (dt : YMD) : String :=
  pad4 dt.y ++ "-" ++ pad2 dt.m ++ "-" ++ pad2 dt.d

/-! ## Computation cache (`backend/models.py`)

The Supabase client is external; a single client call either performs
the documented query semantics or raises (`DbBehavior.failRaise`).
Stored blobs are external bytes: a pickled model either loads back to
the model it encodes or fails to deserialize (`Blob.corrupt`); a JSON
payload either parses or is malformed. -/

/-- Outcome of one Supabase client call: normal operation, or a raised
exception (connection failure, bad response, ...). -/
inductive DbBehavior where
  | ok
  | failRaise (msg : String)
deriving DecidableEq, Repr

/-- A base64-encoded pickled model blob as stored in
`landcare_cached_models.model_data`. -/
inductive Blob where
  | wellFormed (model : Nat)
  | corrupt (tag : String)
deriving DecidableEq, Repr

/-- A row of the `landcare_cached_models` table. -/
structure ModelRow where
  model_key : String
  model_type : String
  model_data : Blob
  model_info : String
  created_at : Int
deriving DecidableEq, Repr

/-- A serialized JSON payload as stored in
`landcare_cached_historical_data.data`. -/
inductive JsonBlob where
  | parses (payload : Nat)
  | malformed (tag : String)
deriving DecidableEq, Repr

/-- A row of the `landcare_cached_historical_data` table. -/
structure HistRow where
  data_type : String
  geometry_hash : String
  latitude : Option Rat
  longitude : Option Rat
  years : Int
  data : JsonBlob
  created_at : Int
deriving DecidableEq, Repr

/-- Model-cache TTL: `timedelta(days=7)` in seconds. -/
def modelTTL : Int := 7 * 86400

/-- Historical-data-cache TTL: `timedelta(days=30)` in seconds. -/
def histTTL : Int := 30 * 86400

/-- One step of selecting the newest row. -/
def pickStep {α : Type} (key : α → Int) (best : Option α) (r : α) : Option α :=
  match best with
  | none => some r
  | some b => if key r > key b then some r else some b

/-- Query step `.order('created_at', descending=True).limit(1)`: the row with the
greatest `created_at` among the filtered rows. -/
def pickLatestBy {α : Type} (key : α → Int) (rows : List α) : Option α :=
  rows.foldl (pickStep key) none

/-- Method `Database.get_cached_arima_model` (models.py lines 314-338): filter
by `model_key` and `created_at > now - 7 days`, take the newest row,
base64-decode and unpickle its `model_data`.  Every failure — client
exception, no matching unexpired row, or deserialization error — returns
`None`. -/
def get_cached_arima_model (beh : DbBehavior) (table : List ModelRow)
    (model_key : String) (now : Int) : Option (Nat × String) :=
  match beh with
  | .failRaise _ => none
  | .ok =>
    let rows := table.filter (fun r =>
      r.model_key == model_key && decide (r.created_at > now - modelTTL))
    match pickLatestBy ModelRow.created_at rows with
    | none => none
    | some r =>
      match r.model_data with
      | .wellFormed m => some (m, r.model_info)
      | .corrupt _ => none

/-- Method `Database.save_cached_arima_model` (models.py lines 340-357): pickle
and base64-encode the model, insert a row with `created_at = now`.  A
client exception leaves the table unchanged (caught, logged, `None`
returned). -/
def save_cached_arima_model (beh : DbBehavior) (table : List ModelRow)
    (model_key : String) (model : Nat) (infoJson : String) (now : Int) :
    List ModelRow :=
  match beh with
  | .failRaise _ => table
  | .ok => table ++ [⟨model_key, "arima", .wellFormed model, infoJson, now⟩]

/-- Method `Database.get_cached_historical_data` (models.py lines 270-295):
filter by `data_type`, `geometry_hash`, `years`,
`created_at > now - 30 days`, and by `latitude`/`longitude` when both
are given; take the newest row and `json.loads` its `data`.  Every
failure returns `None`. -/
def get_cached_historical_data (beh : DbBehavior) (table : List HistRow)
    (data_type : String) (geometry_hash : String)
    (lat lon : Option Rat) (years : Int) (now : Int) :
    Option (HistRow × Nat) :=
  match beh with
  | .failRaise _ => none
  | .ok =>
    let rows := table.filter (fun r =>
      r.data_type == data_type && r.geometry_hash == geometry_hash &&
      decide (r.years = years) && decide (r.created_at > now - histTTL) &&
      (match lat, lon with
       | some la, some lo =>
           decide (r.latitude = some la) && decide (r.longitude = some lo)
       | _, _ => true))
    match pickLatestBy HistRow.created_at rows with
    | none => none
    | some r =>
      match r.data with
      | .parses payload => some (r, payload)
      | .malformed _ => none

/-! ## Forecast engine (`backend/forecasting.py`)

The input series elements are arbitrary Python values; the engine first
filters `v is not None and str(v).lower() != 'nan'` and then applies
`pd.to_numeric(..., errors='coerce').dropna()`. -/

/-- A raw series element. -/
inductive RawVal where
  | num (q : Rat)
  | nan
  | null
  | txt (s : String)
deriving DecidableEq, Repr

/-- A raw date element: a value `pd.to_datetime` parses, or one it
raises on. -/
inductive DateVal where
  | good (dt : YMD)
  | bad (s : String)
deriving DecidableEq, Repr

/-- The first filter: `v is not None and str(v).lower() != 'nan'`
(`str` of a numeric value is never `'nan'`; `str(float('nan'))` is). -/
def keep1 : RawVal → Bool
  | .num _ => true
  | .nan => false
  | .null => false
  | .txt s => s.toLower != "nan"

/-- Pandas `pd.to_datetime(dates)`: parses every element or raises on the first
bad one. -/
def toDatetime : List DateVal → Except String (List YMD)
  | [] => .ok []
  | .good dt :: rest => do
      let ds ← toDatetime rest
      pure (dt :: ds)
  | .bad s :: _ => .error ("Unknown datetime string format: " ++ s)

/-- Pandas `pd.to_numeric(values, errors='coerce').dropna()` on one element:
numbers pass through, NaN is dropped, a string parses via the
pandas numeric parser or is coerced to NaN and dropped. -/
def coerceNum (parseNum : String → Option Rat) : RawVal → Option Rat
  | .num q => some q
  | .nan => none
  | .null => none
  | .txt s => parseNum s

/-- Python `valid_data = [(d, v) for d, v in zip(dates, values) if ...]`
(forecasting.py line 20 / 113). -/
def stage1 (dates : List DateVal) (values : List RawVal) :
    List (DateVal × RawVal) :=
  (dates.zip values).filter (fun p => keep1 p.2)

/-- The fully cleaned numeric series: the values kept by the first
filter, then `pd.to_numeric(..., errors='coerce').dropna()`. -/
def cleanedSeries (parseNum : String → Option Rat)
    (dates : List DateVal) (values : List RawVal) : List Rat :=
  ((stage1 dates values).map Prod.snd).filterMap (coerceNum parseNum)

/-- Dict `model_info` as built by the engine (a Python dict). -/
structure ModelInfo where
  model_type : String
  order : Nat × Nat × Nat
  seasonal_order : Option (Nat × Nat × Nat × Nat) := none
  aic : Rat
  var_name : Option String := none
deriving DecidableEq, Repr

/-- What the result's `model_info` field holds: the structured dict from
a fresh fit, or — on a cache hit — the raw JSON string read back from
the `model_info` column (the source never re-parses it). -/
inductive ModelInfoRepr where
  | struct (mi : ModelInfo)
  | raw (s : String)
deriving DecidableEq, Repr

/-- External capabilities used by the engine: pandas numeric parsing,
`hashlib.md5` over `str(values.values.tolist())`, statsmodels
ARIMA/SARIMAX fitting (returning a fitted model and its AIC, or
raising), `get_forecast` (point forecast and conf-int columns, or
raising) and `json.dumps` of a `model_info` dict. -/
structure EngineOracle where
  parseNum : String → Option Rat
  md5 : List Rat → String
  fitArima : List Rat → Except String (Nat × Rat)
  fitSarima : List Rat → Except String (Nat × Rat)
  getForecast : Nat → Int → Except String (List Rat × List Rat × List Rat)
  toJson : ModelInfo → String

/-- Key `model_key = f"ndvi_{model_type}_{geometry_hash}_{data_hash}"`
(lines 37-39) with `data_hash = md5(str(values.values.tolist()))`. -/
def ndviModelKey (md5 : List Rat → String) (gh : String) (sar : Bool)
    (cleaned : List Rat) : String :=
  "ndvi_" ++ (if sar then "sarima" else "arima") ++ "_" ++ gh ++ "_" ++ md5 cleaned

/-- Key `model_key = f"weather_{variable}_{model_type}_{location_key}_{data_hash}"`
(lines 130-132). -/
def weatherModelKey (md5 : List Rat → String) (v lk : String) (sar : Bool)
    (cleaned : List Rat) : String :=
  "weather_" ++ v ++ "_" ++ (if sar then "sarima" else "arima") ++ "_" ++ lk
    ++ "_" ++ md5 cleaned

/-- The `model_info` dict built after a fresh NDVI fit
(lines 58-63 / 68-72). -/
def fitModelInfo (use_sarima : Bool) (aic : Rat) : ModelInfo :=
  if use_sarima then ⟨"SARIMA", (1, 1, 1), some (1, 1, 1, 12), aic, none⟩
  else ⟨"ARIMA", (1, 1, 1), none, aic, none⟩

/-- The `model_info` dict built after a fresh weather fit
(lines 151-157 / 162-167): same, plus the `variable` key. -/
def fitModelInfoVar (use_sarima : Bool) (aic : Rat) (v : String) : ModelInfo :=
  if use_sarima then ⟨"SARIMA", (1, 1, 1), some (1, 1, 1, 12), aic, some v⟩
  else ⟨"ARIMA", (1, 1, 1), none, aic, some v⟩

/-- A successful `forecast_ndvi` result dict (lines 85-94). -/
structure NdviResult where
  forecast_dates : List String
  forecast_values : List Rat
  ci_lower : List Rat
  ci_upper : List Rat
  model_info : ModelInfoRepr
  cached : Bool
deriving DecidableEq, Repr

/-- The dict `forecast_ndvi` returns: a result or `{'error': msg}`. -/
inductive NdviRet where
  | errD (msg : String)
  | okD (r : NdviResult)
deriving DecidableEq, Repr

/-- What leaves `forecast_ndvi`: a returned dict, or an exception that
escaped (the latter is in the type to make `C10` a statement, not a
tautology of the embedding). -/
inductive NdviOutcome where
  | raised (e : String)
  | returned (r : NdviRet)
deriving DecidableEq, Repr

/-- Lines 78-94: `model_fit.get_forecast(steps=periods)` (may raise,
e.g. for `steps <= 0` depending on the model), `conf_int()`, then
`pd.date_range(dates[-1] + DateOffset(months=1), periods, freq='M')`
(raises on negative `periods`), then result assembly. -/
def forecastTail (o : EngineOracle) (model : Nat) (info : ModelInfoRepr)
    (periods : Int) (lastDate : YMD) (fromCache : Bool) :
    Except String NdviRet := do
  let t ← o.getForecast model periods
  if periods < 0 then
    .error "Number of samples must be non-negative"
  else
    let ds := dateRangeMonthEnd (addMonthClamped lastDate) periods.toNat
    pure (.okD ⟨ds.map dateStr, t.1, t.2.1, t.2.2, info, fromCache⟩)

/-- The body of `forecast_ndvi` (lines 18-94), i.e. everything inside
the `try`.  Returns the dict the body would return together with the
model-cache table after the call (the insert from line 76 survives even
when a later step raises); `Except.error` is an exception escaping to
the outer handler. -/
def forecastNdviBody (o : EngineOracle) (getBeh putBeh : DbBehavior)
    (table : List ModelRow) (now : Int)
    (dates : List DateVal) (values : List RawVal)
    (periods : Int) (geometry_hash : Option String) (use_sarima : Bool) :
    Except String NdviRet × List ModelRow :=
  let valid := stage1 dates values
  if valid = [] then
    (.ok (.errD "No valid historical NDVI data available for forecasting"), table)
  else
    match toDatetime (valid.map Prod.fst) with
    | .error e => (.error e, table)
    | .ok ds =>
      let cleaned := cleanedSeries o.parseNum dates values
      if cleaned = [] then
        (.ok (.errD "No valid historical NDVI data available for forecasting"), table)
      else
        let model_key : Option String :=
          match geometry_hash with
          | some gh =>
              if gh ≠ "" then some (ndviModelKey o.md5 gh use_sarima cleaned)
              else none
          | none => none
        let cached :=
          match model_key with
          | some k => get_cached_arima_model getBeh table k now
          | none => none
        let lastD := ds.getLastD ⟨0, 1, 1⟩
        match cached with
        | some mi =>
            (forecastTail o mi.1 (.raw mi.2) periods lastD true, table)
        | none =>
            match (if use_sarima then o.fitSarima cleaned else o.fitArima cleaned) with
            | .error e => (.error e, table)
            | .ok ma =>
                let info : ModelInfo := fitModelInfo use_sarima ma.2
                let table2 :=
                  match model_key with
                  | some k => save_cached_arima_model putBeh table k ma.1 (o.toJson info) now
                  | none => table
                (forecastTail o ma.1 (.struct info) periods lastD false, table2)

/-- Engine `forecast_ndvi` (lines 10-96): the body wrapped in
`try: ... except Exception as e: return {'error': str(e)}`. -/
def forecast_ndvi (o : EngineOracle) (getBeh putBeh : DbBehavior)
    (table : List ModelRow) (now : Int)
    (dates : List DateVal) (values : List RawVal)
    (periods : Int) (geometry_hash : Option String) (use_sarima : Bool) :
    NdviOutcome × List ModelRow :=
  match forecastNdviBody o getBeh putBeh table now dates values periods geometry_hash use_sarima with
  | (.ok r, t) => (.returned r, t)
  | (.error e, t) => (.returned (.errD e), t)

/-- The `historical_weather` argument of `forecast_weather`: a dict
whose relevant keys may be present or absent. -/
structure WeatherInput where
  dates : Option (List DateVal) := none
  temperature : Option (List RawVal) := none
  rainfall : Option (List RawVal) := none
deriving DecidableEq, Repr

/-- A successful `forecast_weather` result dict (lines 179-189). -/
structure WeatherResult where
  forecast_dates : List String
  forecast_values : List Rat
  ci_lower : List Rat
  ci_upper : List Rat
  var_name : String
  model_info : ModelInfoRepr
  cached : Bool
deriving DecidableEq, Repr

/-- The dict `forecast_weather` returns. -/
inductive WeatherRet where
  | errD (msg : String)
  | okD (r : WeatherResult)
deriving DecidableEq, Repr

/-- What leaves `forecast_weather`. -/
inductive WeatherOutcome where
  | raised (e : String)
  | returned (r : WeatherRet)
deriving DecidableEq, Repr

/-- Lines 173-189: `get_forecast`, `conf_int`, `date_range`, weather
result assembly (the weather twin of `forecastTail`). -/
def weatherTail (o : EngineOracle) (model : Nat) (info : ModelInfoRepr)
    (periods : Int) (lastDate : YMD) (v : String) (fromCache : Bool) :
    Except String WeatherRet := do
  let t ← o.getForecast model periods
  if periods < 0 then
    .error "Number of samples must be non-negative"
  else
    let ds := dateRangeMonthEnd (addMonthClamped lastDate) periods.toNat
    pure (.okD ⟨ds.map dateStr, t.1, t.2.1, t.2.2, v, info, fromCache⟩)

/-- The body of `forecast_weather` (lines 107-189): alias handling for
`precipitation`, the two dict accesses of line 113 (each may raise
`KeyError`), then the same clean/cache/fit/forecast pipeline as
`forecast_ndvi` with the weather cache key and a `variable` field in
`model_info` and the result. -/
def forecastWeatherBody (o : EngineOracle) (getBeh putBeh : DbBehavior)
    (table : List ModelRow) (now : Int)
    (hw : WeatherInput) (var0 : String)
    (periods : Int) (location_key : Option String) (use_sarima : Bool) :
    Except String WeatherRet × List ModelRow :=
  let v := if var0 = "precipitation" then "rainfall" else var0
  match (match hw.dates with
         | some ds => Except.ok (ε := String) ds
         | none => .error "KeyError: dates") with
  | .error e => (.error e, table)
  | .ok rawDates =>
    match (if v = "temperature" then
             match hw.temperature with
             | some vs => Except.ok (ε := String) vs
             | none => .error ("KeyError: " ++ v)
           else if v = "rainfall" then
             match hw.rainfall with
             | some vs => Except.ok vs
             | none => .error ("KeyError: " ++ v)
           else .error ("KeyError: " ++ v)) with
    | .error e => (.error e, table)
    | .ok rawVals =>
      let valid := stage1 rawDates rawVals
      if valid = [] then
        (.ok (.errD ("No valid historical " ++ v ++ " data available for forecasting")), table)
      else
        match toDatetime (valid.map Prod.fst) with
        | .error e => (.error e, table)
        | .ok ds =>
          let cleaned := cleanedSeries o.parseNum rawDates rawVals
          if cleaned = [] then
            (.ok (.errD ("No valid historical " ++ v ++ " data available for forecasting")), table)
          else
            let model_key : Option String :=
              match location_key with
              | some lk =>
                  if lk ≠ "" then
                    some (weatherModelKey o.md5 v lk use_sarima cleaned)
                  else none
              | none => none
            let cached :=
              match model_key with
              | some k => get_cached_arima_model getBeh table k now
              | none => none
            let lastD := ds.getLastD ⟨0, 1, 1⟩
            match cached with
            | some mi =>
                (weatherTail o mi.1 (.raw mi.2) periods lastD v true, table)
            | none =>
                match (if use_sarima then o.fitSarima cleaned else o.fitArima cleaned) with
                | .error e => (.error e, table)
                | .ok ma =>
                    let info : ModelInfo := fitModelInfoVar use_sarima ma.2 v
                    let table2 :=
                      match model_key with
                      | some k => save_cached_arima_model putBeh table k ma.1 (o.toJson info) now
                      | none => table
                    (weatherTail o ma.1 (.struct info) periods lastD v false, table2)

/-- Engine `forecast_weather` (lines 98-191): the body wrapped in
`try: ... except Exception as e: return {'error': str(e)}`. -/
def forecast_weather (o : EngineOracle) (getBeh putBeh : DbBehavior)
    (table : List ModelRow) (now : Int)
    (hw : WeatherInput) (var0 : String)
    (periods : Int) (location_key : Option String) (use_sarima : Bool) :
    WeatherOutcome × List ModelRow :=
  match forecastWeatherBody o getBeh putBeh table now hw var0 periods location_key use_sarima with
  | (.ok r, t) => (.returned r, t)
  | (.error e, t) => (.returned (.errD e), t)

/-! ## Auxiliary predicates and concrete fixtures for the theorems -/

/-- A store record is terminal when its status is `completed` or
`failed`. -/
def isTerminal (e : TaskEntry) : Bool :=
  e.status == .completed || e.status == .failed

/-- A deterministic instantiation of the engine oracle, used to evaluate
the embedding on concrete inputs. -/
def testOracle : EngineOracle where
  parseNum := fun _ => none
  md5 := fun _ => "abc"
  fitArima := fun _ => .ok (1, 0)
  fitSarima := fun _ => .ok (2, 0)
  getForecast := fun _ n =>
    if 0 ≤ n then
      .ok (List.replicate n.toNat 0, List.replicate n.toNat 0, List.replicate n.toNat 0)
    else .error "steps must be a positive integer"
  toJson := fun _ => "info"

/-- A concrete worker oracle whose run completes successfully. -/
def testRunOk : RunOracle where
  tStart := 10
  tEnd := 25
  geeInit := .ok true
  mkRoi := .ok ()
  mkForecaster := .ok ()
  train := .ok none
  fc := .ok (.inr 7)
  dbSave := .ok ()

/-- A concrete worker oracle whose job raises. -/
def testRunRaise : RunOracle where
  tStart := 10
  tEnd := 25
  geeInit := .ok true
  mkRoi := .ok ()
  mkForecaster := .ok ()
  train := .error "boom"
  fc := .ok (.inr 7)
  dbSave := .ok ()

/-- A model-cache row whose blob fails to unpickle. -/
def corruptRow : ModelRow :=
  ⟨"k1", "arima", .corrupt "version-mismatch", "info", 0⟩

/-- A fresh, well-formed model-cache row. -/
def freshModelRow : ModelRow :=
  ⟨"k1", "arima", .wellFormed 3, "info", 0⟩

/-- A fresh historical-cache row with a parseable payload. -/
def freshHistRow : HistRow :=
  ⟨"ndvi", "g1", none, none, 10, .parses 5, 0⟩

/-! ## Store lemmas -/

theorem storeLookup_set_self (s : Store) (k : String) (v : TaskEntry) :
    storeLookup (storeSet s k v) k = some v := by
  induction s with
  | nil => simp [storeSet, storeLookup]
  | cons hd tl ih =>
    obtain ⟨k₀, v₀⟩ := hd
    by_cases h : k₀ = k <;> simp [storeSet, storeLookup, h, ih]

theorem getStatus_notFound_iff (s : Store) (id : String) :
    get_forecast_status s id = .error .notFound ↔ storeLookup s id = none := by
  unfold get_forecast_status
  cases h : storeLookup s id with
  | none => simp [h, bind, Except.bind]
  | some t =>
    simp only [h]
    constructor
    · intro hEq
      exfalso
      revert hEq
      simp only [bind, Except.bind, pure, Except.pure]
      repeat' split
      all_goals simp
    · intro hEq; cases hEq

/-! ## Claim C1 -/

/-- C1 counterexample: a submit accepted on an empty store returns its
task id but writes nothing, so an immediate `getStatus` with that id is
a 404, contradicting the claim that a pending record exists from the
moment `submit` returns. -/
theorem C1_counterexample :
    forecast_vegetation [6] true 1700000000 42 [] =
      .ok ({ task_id := "veg_forecast_1700000000_42", status := "accepted"
           , message := "Vegetation forecasting task started"
           , periods := [6], fallback_enabled := true }, []) ∧
    get_forecast_status [] "veg_forecast_1700000000_42" = .error .notFound := by
  exact ⟨rfl, rfl⟩

/-- C1 (amended): `forecast_vegetation` returns its task id immediately
but leaves the task table unchanged — no record (pending or otherwise)
is created at submission; for an id not yet in the table `getStatus`
yields NotFound, and only once the background worker performs its first
write does `getStatus` stop yielding NotFound. -/
theorem C1_amended_no_record_at_submit
    (periods : List Int) (uf : Bool) (sec : Nat) (ghash : Int) (store : Store)
    (r : SubmitResp) (store2 : Store) (e : TaskEntry) (tid : String)
    (hsub : forecast_vegetation periods uf sec ghash store = .ok (r, store2))
    (hfresh : storeLookup store r.task_id = none) :
    store2 = store ∧
    get_forecast_status store r.task_id = .error .notFound ∧
    get_forecast_status (storeSet store tid e) tid ≠ .error .notFound := by
  refine ⟨?_, (getStatus_notFound_iff _ _).2 hfresh, ?_⟩
  · unfold forecast_vegetation at hsub
    split at hsub
    · cases hsub
    · split at hsub
      · cases hsub
      · cases hsub; rfl
  · intro hEq
    rw [getStatus_notFound_iff, storeLookup_set_self] at hEq
    cases hEq

/-- Witness for the amended C1 at a concrete accepted submission. -/
theorem C1_amended_witness :
    ([] : Store) = [] ∧
    get_forecast_status [] "veg_forecast_1700000000_42" = .error .notFound ∧
    get_forecast_status (storeSet [] "t0" (processingEntry 3)) "t0" ≠ .error .notFound :=
  C1_amended_no_record_at_submit [6] true 1700000000 42 []
    { task_id := "veg_forecast_1700000000_42", status := "accepted"
    , message := "Vegetation forecasting task started"
    , periods := [6], fallback_enabled := true } [] (processingEntry 3) "t0" rfl rfl

/-! ## Claim C9 -/

/-- C9 counterexample: two distinct submit calls (different request
bodies) made in the same clock second with the same geometry receive the
identical task id `veg_forecast_1700000000_42`. -/
theorem C9_counterexample :
    Except.map (fun p => p.1.task_id)
        (forecast_vegetation [6] true 1700000000 42 []) =
      .ok "veg_forecast_1700000000_42" ∧
    Except.map (fun p => p.1.task_id)
        (forecast_vegetation [12] false 1700000000 42 []) =
      .ok "veg_forecast_1700000000_42" := by
  exact ⟨rfl, rfl⟩

/-- C9 (amended): the task id is a pure function of the submission clock
second and `hash(str(geometry)) % 10000`; any two submissions agreeing
on those — in particular two submits in the same second with the same
geometry — receive the identical id, so ids are not unique across submit
calls. -/
theorem C9_amended_id_determined_by_second_and_hash
    (sec : Nat) (g₁ g₂ : Int) (h : g₁ % 10000 = g₂ % 10000) :
    mkTaskId sec g₁ = mkTaskId sec g₂ := by
  unfold mkTaskId
  rw [h]

/-- Witness for the amended C9: two geometry hashes in the same residue
class collide. -/
theorem C9_amended_witness :
    (10001 : Int) % 10000 = 20001 % 10000 ∧
    mkTaskId 1700000000 10001 = mkTaskId 1700000000 20001 :=
  ⟨by decide, C9_amended_id_determined_by_second_and_hash 1700000000 10001 20001 (by decide)⟩

/-! ## Claim C3 -/

/-- C3 counterexample: a request with `periods=[0]` passes validation and
is issued a task id (no synchronous InputError), and the engine, called
with `periods=0`, performs no periods check and returns a non-error
result dict — there is no `InvalidPeriods` rejection anywhere. -/
theorem C3_counterexample :
    forecast_vegetation [0] true 1700000000 7 [] =
      .ok ({ task_id := "veg_forecast_1700000000_7", status := "accepted"
           , message := "Vegetation forecasting task started"
           , periods := [0], fallback_enabled := true }, []) ∧
    (forecast_ndvi testOracle .ok .ok [] 0 [.good ⟨2023, 1, 15⟩] [.num 1] 0 none false).1 =
      .returned (.okD ⟨[], [], [], [], .struct ⟨"ARIMA", (1, 1, 1), none, 0, none⟩, false⟩) := by
  exact ⟨rfl, rfl⟩

/-- C3 (amended): submission-time validation rejects exactly the empty
periods list and any period greater than 24; zero or negative periods
pass validation and a task id is issued, and the engine itself contains
no periods validation. -/
theorem C3_amended_validation_rejects_only_empty_or_over_24
    (periods : List Int) (uf : Bool) (sec : Nat) (g : Int) (store : Store) :
    (∃ err, forecast_vegetation periods uf sec g store = .error err) ↔
      (periods = [] ∨ ∃ p ∈ periods, p > 24) := by
  unfold forecast_vegetation
  by_cases h1 : periods = []
  · simp [h1]
  · rw [if_neg h1]
    by_cases h2 : periods.any (fun p => p > 24) = true
    · rw [if_pos h2]
      simp only [List.any_eq_true, decide_eq_true_eq] at h2
      constructor
      · intro _; exact Or.inr h2
      · intro _; exact ⟨⟨400, "Maximum forecast period is 24 months"⟩, rfl⟩
    · rw [if_neg h2]
      simp only [List.any_eq_true, decide_eq_true_eq] at h2
      constructor
      · rintro ⟨err, hc⟩; cases hc
      · rintro (hc | hex)
        · exact absurd hc h1
        · exact absurd hex h2

/-! ## Claims C2 and C8: the worker trace -/

theorem runBody_shape (o : RunOracle) (w : TaskEntry) (h : runBody o = .ok w) :
    (∃ p, w = completedEntry p o.tEnd) ∨ (∃ m, w = failedEntry m o.tEnd) := by
  unfold runBody at h
  repeat' split at h
  all_goals cases h
  all_goals try exact Or.inr ⟨_, rfl⟩
  all_goals exact Or.inl ⟨_, rfl⟩

theorem trace_shape (o : RunOracle) :
    ∃ w, run_ml_forecast_background o = [processingEntry o.tStart, w] ∧
      ((∃ p, w = completedEntry p o.tEnd) ∨ (∃ m, w = failedEntry m o.tEnd)) := by
  unfold run_ml_forecast_background
  rcases hb : runBody o with e | w
  · exact ⟨failedEntry e o.tEnd, rfl, Or.inr ⟨_, rfl⟩⟩
  · exact ⟨w, rfl, runBody_shape o w hb⟩

/-- C2: every worker run writes a non-terminal `processing` record first
and then exactly one terminal record, which is the last write (so a
terminal state is never left again); the terminal status is `completed`
or `failed` and never both, it always carries an `end_time`, and when
the job body raises, the outer handler records `failed` with exactly the
exception message and an `end_time` — the worker itself never
propagates the exception (its trace is total). -/
theorem C2_single_terminal_state_and_error_recovery (o : RunOracle) :
    (run_ml_forecast_background o).head? = some (processingEntry o.tStart) ∧
    isTerminal (processingEntry o.tStart) = false ∧
    (∃ w, (run_ml_forecast_background o).getLast? = some w ∧
      isTerminal w = true ∧
      ((w.status = .completed ∧ w.status ≠ .failed) ∨
       (w.status = .failed ∧ w.status ≠ .completed)) ∧
      w.end_time = some o.tEnd) ∧
    ((run_ml_forecast_background o).filter isTerminal).length = 1 ∧
    (∀ e, runBody o = .error e →
      (run_ml_forecast_background o).getLast? =
        some (failedEntry e o.tEnd)) := by
  obtain ⟨w, htr, hshape⟩ := trace_shape o
  refine ⟨by rw [htr]; rfl, rfl, ⟨w, ?_, ?_, ?_, ?_⟩, ?_, ?_⟩
  · rw [htr]; rfl
  · rcases hshape with ⟨p, rfl⟩ | ⟨m, rfl⟩ <;> rfl
  · rcases hshape with ⟨p, rfl⟩ | ⟨m, rfl⟩
    · exact Or.inl ⟨rfl, by simp [completedEntry]⟩
    · exact Or.inr ⟨rfl, by simp [failedEntry]⟩
  · rcases hshape with ⟨p, rfl⟩ | ⟨m, rfl⟩ <;> rfl
  · rw [htr]
    rcases hshape with ⟨p, rfl⟩ | ⟨m, rfl⟩ <;> rfl
  · intro e he
    unfold run_ml_forecast_background
    rw [he]
    rfl

/-- Witness for C2 at a concrete oracle whose job raises. -/
theorem C2_witness :
    (run_ml_forecast_background testRunRaise).head? =
        some (processingEntry testRunRaise.tStart) ∧
    isTerminal (processingEntry testRunRaise.tStart) = false ∧
    (∃ w, (run_ml_forecast_background testRunRaise).getLast? = some w ∧
      isTerminal w = true ∧
      ((w.status = .completed ∧ w.status ≠ .failed) ∨
       (w.status = .failed ∧ w.status ≠ .completed)) ∧
      w.end_time = some testRunRaise.tEnd) ∧
    ((run_ml_forecast_background testRunRaise).filter isTerminal).length = 1 ∧
    (∀ e, runBody testRunRaise = .error e →
      (run_ml_forecast_background testRunRaise).getLast? =
        some (failedEntry e testRunRaise.tEnd)) :=
  C2_single_terminal_state_and_error_recovery testRunRaise

theorem applyTrace_pair (store : Store) (id : String) (a b : TaskEntry) :
    storeLookup (applyTrace store id [a, b]) id = some b := by
  simp [applyTrace, storeLookup_set_self]

/-- C8 (code bug, evaluated): after any worker run, the stored terminal
snapshot has an `end_time` but no `start_time` (each terminal write
replaced the whole dict), so the status endpoint's
`task['end_time'] - task['start_time']` raises `KeyError` instead of
returning a duration — a completed or failed task can never be polled
successfully. -/
theorem C8_terminal_poll_raises_keyerror (o : RunOracle) (id : String) (store : Store) :
    get_forecast_status (applyTrace store id (run_ml_forecast_background o)) id =
      .error (.keyError "start_time") := by
  obtain ⟨w, htr, hshape⟩ := trace_shape o
  rw [htr]
  have hlook := applyTrace_pair store id (processingEntry o.tStart) w
  rcases hshape with ⟨p, rfl⟩ | ⟨m, rfl⟩ <;>
  · unfold get_forecast_status
    rw [hlook]
    rfl

/-! ## Cache lemmas -/

theorem pickStep_foldl_mem {α : Type} (key : α → Int) (l : List α)
    (acc : Option α) (r : α)
    (h : l.foldl (pickStep key) acc = some r) : r ∈ l ∨ acc = some r := by
  induction l generalizing acc with
  | nil => exact Or.inr h
  | cons a t ih =>
    rw [List.foldl_cons] at h
    rcases ih _ h with hm | hacc
    · exact Or.inl (List.mem_cons_of_mem _ hm)
    · rcases acc with _ | b
      · cases hacc
        exact Or.inl (List.mem_cons_self _ _)
      · simp only [pickStep] at hacc
        by_cases hk : key a > key b
        · rw [if_pos hk] at hacc
          cases hacc
          exact Or.inl (List.mem_cons_self _ _)
        · rw [if_neg hk] at hacc
          exact Or.inr hacc

theorem pickLatestBy_mem {α : Type} (key : α → Int) (l : List α) (r : α)
    (h : pickLatestBy key l = some r) : r ∈ l := by
  rcases pickStep_foldl_mem key l none r h with hm | hacc
  · exact hm
  · cases hacc

theorem pickStep_foldl_some {α : Type} (key : α → Int) (l : List α) (b : α) :
    (l.foldl (pickStep key) (some b)).isSome := by
  induction l generalizing b with
  | nil => rfl
  | cons a t ih =>
    rw [List.foldl_cons]
    by_cases h : key a > key b
    · simpa [pickStep, h] using ih a
    · simpa [pickStep, h] using ih b

theorem pickLatestBy_isSome {α : Type} (key : α → Int) (l : List α)
    (h : l ≠ []) : (pickLatestBy key l).isSome := by
  cases l with
  | nil => cases h rfl
  | cons a t =>
    unfold pickLatestBy
    rw [List.foldl_cons]
    exact pickStep_foldl_some key t a

theorem get_model_corrupt_none (table : List ModelRow) (key : String) (now : Int)
    (hcorr : ∀ r ∈ table, ∃ tag, r.model_data = .corrupt tag) :
    get_cached_arima_model .ok table key now = none := by
  unfold get_cached_arima_model
  cases hpick : pickLatestBy ModelRow.created_at
      (table.filter (fun r =>
        r.model_key == key && decide (r.created_at > now - modelTTL))) with
  | none => simp [hpick]
  | some r =>
    have hrmem := pickLatestBy_mem _ _ _ hpick
    rw [List.mem_filter] at hrmem
    obtain ⟨tag, htag⟩ := hcorr r hrmem.1
    simp [hpick, htag]

/-! ## Claim C6 -/

/-- C6: under a healthy client and well-formed blobs, a cache get
returns an entry iff a matching entry exists with
`now - created_at < ttl`, the TTL being 7 days for the fitted-model
cache and 30 days for the raw historical-data cache; an expired entry is
treated as absent. -/
theorem C6_ttl_policy
    (mtable : List ModelRow) (key : String) (nowm : Int)
    (htable : List HistRow) (dt gh : String) (yrs nowh : Int)
    (hm : ∀ r ∈ mtable, r.model_key = key → ∃ mo, r.model_data = .wellFormed mo)
    (hh : ∀ r ∈ htable, r.data_type = dt → r.geometry_hash = gh → r.years = yrs →
        ∃ p, r.data = .parses p) :
    ((get_cached_arima_model .ok mtable key nowm).isSome = true ↔
      ∃ r ∈ mtable, r.model_key = key ∧ nowm - r.created_at < modelTTL) ∧
    ((get_cached_historical_data .ok htable dt gh none none yrs nowh).isSome = true ↔
      ∃ r ∈ htable, r.data_type = dt ∧ r.geometry_hash = gh ∧ r.years = yrs ∧
        nowh - r.created_at < histTTL) := by
  constructor
  · unfold get_cached_arima_model
    cases hpick : pickLatestBy ModelRow.created_at
        (mtable.filter (fun r =>
          r.model_key == key && decide (r.created_at > nowm - modelTTL))) with
    | none =>
      have hnil : mtable.filter (fun r =>
          r.model_key == key && decide (r.created_at > nowm - modelTTL)) = [] := by
        by_contra hne
        have := pickLatestBy_isSome ModelRow.created_at _ hne
        rw [hpick] at this
        cases this
      rw [List.filter_eq_nil_iff] at hnil
      simp only [hpick]
      constructor
      · intro hfalse
        cases hfalse
      · rintro ⟨r, hrl, hkey, httl⟩
        exfalso
        have := hnil r hrl
        simp only [Bool.and_eq_true, beq_iff_eq, decide_eq_true_eq, not_and] at this
        exact absurd (by omega : r.created_at > nowm - modelTTL) (this hkey)
    | some r =>
      have hrmem := pickLatestBy_mem _ _ _ hpick
      rw [List.mem_filter] at hrmem
      have hpr := hrmem.2
      simp only [Bool.and_eq_true, beq_iff_eq, decide_eq_true_eq] at hpr
      obtain ⟨mo, hmo⟩ := hm r hrmem.1 hpr.1
      simp only [hpick, hmo]
      constructor
      · intro _
        exact ⟨r, hrmem.1, hpr.1, by omega⟩
      · intro _
        rfl
  · unfold get_cached_historical_data
    cases hpick : pickLatestBy HistRow.created_at
        (htable.filter (fun r =>
          r.data_type == dt && r.geometry_hash == gh &&
          decide (r.years = yrs) && decide (r.created_at > nowh - histTTL) &&
          (match (none : Option Rat), (none : Option Rat) with
           | some la, some lo =>
               decide (r.latitude = some la) && decide (r.longitude = some lo)
           | _, _ => true))) with
    | none =>
      have hnil : htable.filter (fun r =>
          r.data_type == dt && r.geometry_hash == gh &&
          decide (r.years = yrs) && decide (r.created_at > nowh - histTTL) &&
          (match (none : Option Rat), (none : Option Rat) with
           | some la, some lo =>
               decide (r.latitude = some la) && decide (r.longitude = some lo)
           | _, _ => true)) = [] := by
        by_contra hne
        have := pickLatestBy_isSome HistRow.created_at _ hne
        rw [hpick] at this
        cases this
      rw [List.filter_eq_nil_iff] at hnil
      simp only [hpick]
      constructor
      · intro hfalse
        cases hfalse
      · rintro ⟨r, hrl, h1, h2, h3, httl⟩
        exfalso
        have := hnil r hrl
        simp only [Bool.and_eq_true, beq_iff_eq, decide_eq_true_eq, Bool.and_true,
          not_and] at this
        exact absurd (by omega : r.created_at > nowh - histTTL) (this ⟨⟨h1, h2⟩, h3⟩)
    | some r =>
      have hrmem := pickLatestBy_mem _ _ _ hpick
      rw [List.mem_filter] at hrmem
      have hpr := hrmem.2
      simp only [Bool.and_eq_true, beq_iff_eq, decide_eq_true_eq, Bool.and_true] at hpr
      obtain ⟨p, hp⟩ := hh r hrmem.1 hpr.1.1.1 hpr.1.1.2 hpr.1.2
      simp only [hpick, hp]
      constructor
      · intro _
        exact ⟨r, hrmem.1, hpr.1.1.1, hpr.1.1.2, hpr.1.2, by omega⟩
      · intro _
        rfl

/-- Witness for C6 on concrete one-row tables. -/
theorem C6_witness :
    ((get_cached_arima_model .ok [freshModelRow] "k1" 100).isSome = true ↔
      ∃ r ∈ [freshModelRow], r.model_key = "k1" ∧ (100 : Int) - r.created_at < modelTTL) ∧
    ((get_cached_historical_data .ok [freshHistRow] "ndvi" "g1" none none 10 50).isSome = true ↔
      ∃ r ∈ [freshHistRow], r.data_type = "ndvi" ∧ r.geometry_hash = "g1" ∧
        r.years = 10 ∧ (50 : Int) - r.created_at < histTTL) :=
  C6_ttl_policy [freshModelRow] "k1" 100 [freshHistRow] "ndvi" "g1" 10 50
    (by
      intro r hr hkey
      rw [List.mem_singleton] at hr
      subst hr
      exact ⟨3, rfl⟩)
    (by
      intro r hr h1 h2 h3
      rw [List.mem_singleton] at hr
      subst hr
      exact ⟨5, rfl⟩)

/-! ## Claim C7 -/

theorem forecastNdviBody_outcome_cache_invariant
    (o : EngineOracle) (g1 p1 g2 p2 : DbBehavior)
    (t1 t2 : List ModelRow) (now1 now2 : Int)
    (dates : List DateVal) (values : List RawVal)
    (periods : Int) (gh : Option String) (sar : Bool)
    (hget : ∀ k, get_cached_arima_model g1 t1 k now1 =
                 get_cached_arima_model g2 t2 k now2) :
    (forecastNdviBody o g1 p1 t1 now1 dates values periods gh sar).1 =
      (forecastNdviBody o g2 p2 t2 now2 dates values periods gh sar).1 := by
  unfold forecastNdviBody
  by_cases h1 : stage1 dates values = []
  · simp [h1]
  · simp only [if_neg h1]
    cases htd : toDatetime ((stage1 dates values).map Prod.fst) with
    | error e => rfl
    | ok ds =>
      by_cases h2 : cleanedSeries o.parseNum dates values = []
      · simp [h2]
      · simp only [if_neg h2]
        rcases gh with _ | g
        · cases hf : (if sar then o.fitSarima (cleanedSeries o.parseNum dates values)
              else o.fitArima (cleanedSeries o.parseNum dates values)) with
          | error e => simp [hf]
          | ok ma => simp [hf]
        · by_cases he : g = ""
          · subst he
            cases hf : (if sar then o.fitSarima (cleanedSeries o.parseNum dates values)
                else o.fitArima (cleanedSeries o.parseNum dates values)) with
            | error e => simp [hf]
            | ok ma => simp [hf]
          · simp only [hget]
            cases hc : get_cached_arima_model g2 t2
                (ndviModelKey o.md5 g sar (cleanedSeries o.parseNum dates values)) now2 with
            | some mi => simp [he, hc]
            | none =>
              cases hf : (if sar then o.fitSarima (cleanedSeries o.parseNum dates values)
                  else o.fitArima (cleanedSeries o.parseNum dates values)) with
              | error e => simp [he, hc, hf]
              | ok ma => simp [he, hc, hf]

theorem forecast_ndvi_fst (o : EngineOracle) (getBeh putBeh : DbBehavior)
    (table : List ModelRow) (now : Int)
    (dates : List DateVal) (values : List RawVal)
    (periods : Int) (gh : Option String) (sar : Bool) :
    (forecast_ndvi o getBeh putBeh table now dates values periods gh sar).1 =
      (match (forecastNdviBody o getBeh putBeh table now dates values periods gh sar).1 with
       | .ok r => .returned r
       | .error e => .returned (.errD e)) := by
  unfold forecast_ndvi
  rcases hb : forecastNdviBody o getBeh putBeh table now dates values periods gh sar
    with ⟨fst, snd⟩
  cases fst <;> simp

/-- C7: every cache failure mode is non-fatal and behaves as a miss — a
raising client makes the model-cache get return `None`; a stored blob
that fails to deserialize makes it return `None`; and a forecast whose
cache reads and writes all raise, or whose cache rows are all corrupt,
returns exactly the same dict as a forecast over an empty (healthy)
cache — the forecast never fails because of the cache. -/
theorem C7_cache_failures_nonfatal
    (o : EngineOracle) (table : List ModelRow) (now : Int) (key : String)
    (msg msg2 : String) (dates : List DateVal) (values : List RawVal)
    (periods : Int) (gh : Option String) (sar : Bool)
    (hcorr : ∀ r ∈ table, ∃ tag, r.model_data = .corrupt tag) :
    get_cached_arima_model (.failRaise msg) table key now = none ∧
    get_cached_arima_model .ok table key now = none ∧
    (forecast_ndvi o (.failRaise msg) (.failRaise msg2) table now dates values periods gh sar).1 =
      (forecast_ndvi o .ok .ok [] now dates values periods gh sar).1 ∧
    (forecast_ndvi o .ok .ok table now dates values periods gh sar).1 =
      (forecast_ndvi o .ok .ok [] now dates values periods gh sar).1 := by
  refine ⟨rfl, get_model_corrupt_none table key now hcorr, ?_, ?_⟩
  · have h := forecastNdviBody_outcome_cache_invariant o (.failRaise msg) (.failRaise msg2)
      .ok .ok table [] now now dates values periods gh sar (fun k => rfl)
    rw [forecast_ndvi_fst, forecast_ndvi_fst, h]
  · have h := forecastNdviBody_outcome_cache_invariant o .ok .ok
      .ok .ok table [] now now dates values periods gh sar
      (fun k => (get_model_corrupt_none table k now hcorr).trans rfl)
    rw [forecast_ndvi_fst, forecast_ndvi_fst, h]

/-- Witness for C7 on a one-row corrupt cache. -/
theorem C7_witness :
    get_cached_arima_model (.failRaise "connection refused") [corruptRow] "k1" 5 = none ∧
    get_cached_arima_model .ok [corruptRow] "k1" 5 = none ∧
    (forecast_ndvi testOracle (.failRaise "connection refused") (.failRaise "write failed")
        [corruptRow] 5 [.good ⟨2023, 1, 15⟩] [.num 1] 1 (some "g") false).1 =
      (forecast_ndvi testOracle .ok .ok [] 5
        [.good ⟨2023, 1, 15⟩] [.num 1] 1 (some "g") false).1 ∧
    (forecast_ndvi testOracle .ok .ok [corruptRow] 5
        [.good ⟨2023, 1, 15⟩] [.num 1] 1 (some "g") false).1 =
      (forecast_ndvi testOracle .ok .ok [] 5
        [.good ⟨2023, 1, 15⟩] [.num 1] 1 (some "g") false).1 :=
  C7_cache_failures_nonfatal testOracle [corruptRow] 5 "k1" "connection refused"
    "write failed" [.good ⟨2023, 1, 15⟩] [.num 1] 1 (some "g") false
    (by
      intro r hr
      rw [List.mem_singleton] at hr
      subst hr
      exact ⟨"version-mismatch", rfl⟩)

/-! ## Claim C4 -/

theorem monthEndSeq_length (p : Nat) : ∀ (y m : Nat), (monthEndSeq y m p).length = p := by
  induction p with
  | zero => intro y m; rfl
  | succ n ih =>
    intro y m
    simp only [monthEndSeq, List.length_cons, ih]

theorem forecastTail_ok (o : EngineOracle) (model : Nat) (info : ModelInfoRepr)
    (periods : Int) (lastDate : YMD) (fc : Bool) (r : NdviResult)
    (h : forecastTail o model info periods lastDate fc = .ok (.okD r)) :
    0 ≤ periods ∧
    r.forecast_dates =
      (dateRangeMonthEnd (addMonthClamped lastDate) periods.toNat).map dateStr := by
  unfold forecastTail at h
  cases hg : o.getForecast model periods with
  | error e =>
    rw [hg] at h
    simp [bind, Except.bind] at h
  | ok t =>
    rw [hg] at h
    simp only [bind, Except.bind] at h
    by_cases hp : periods < 0
    · rw [if_pos hp] at h
      cases h
    · rw [if_neg hp] at h
      simp only [pure, Except.pure, Except.ok.injEq, NdviRet.okD.injEq] at h
      subst h
      exact ⟨by omega, rfl⟩

theorem forecastNdviBody_ok_dates
    (o : EngineOracle) (getBeh putBeh : DbBehavior)
    (table : List ModelRow) (now : Int)
    (dates : List DateVal) (values : List RawVal)
    (periods : Int) (gh : Option String) (sar : Bool) (r : NdviResult)
    (h : (forecastNdviBody o getBeh putBeh table now dates values periods gh sar).1 =
      .ok (.okD r)) :
    0 ≤ periods ∧
    ∃ ds, toDatetime ((stage1 dates values).map Prod.fst) = .ok ds ∧
      r.forecast_dates =
        (dateRangeMonthEnd (addMonthClamped (ds.getLastD ⟨0, 1, 1⟩)) periods.toNat).map dateStr := by
  unfold forecastNdviBody at h
  by_cases h1 : stage1 dates values = []
  · simp [h1] at h
  · simp only [if_neg h1] at h
    cases htd : toDatetime ((stage1 dates values).map Prod.fst) with
    | error e =>
      rw [htd] at h
      cases h
    | ok ds =>
      rw [htd] at h
      refine ⟨?_, ds, rfl, ?_⟩ <;>
      · by_cases h2 : cleanedSeries o.parseNum dates values = []
        · simp [h2] at h
        · simp only [if_neg h2] at h
          rcases gh with _ | g
          · dsimp only at h
            cases hf : (if sar then o.fitSarima (cleanedSeries o.parseNum dates values)
                else o.fitArima (cleanedSeries o.parseNum dates values)) with
            | error e => rw [hf] at h; cases h
            | ok ma =>
              rw [hf] at h
              first
                | exact (forecastTail_ok o ma.1 _ periods _ false r h).1
                | exact (forecastTail_ok o ma.1 _ periods _ false r h).2
          · dsimp only at h
            by_cases he : g = ""
            · subst he
              rw [if_neg (by simp : ¬ (("" : String) ≠ ""))] at h
              dsimp only at h
              cases hf : (if sar then o.fitSarima (cleanedSeries o.parseNum dates values)
                  else o.fitArima (cleanedSeries o.parseNum dates values)) with
              | error e => rw [hf] at h; cases h
              | ok ma =>
                rw [hf] at h
                first
                  | exact (forecastTail_ok o ma.1 _ periods _ false r h).1
                  | exact (forecastTail_ok o ma.1 _ periods _ false r h).2
            · rw [if_pos he] at h
              dsimp only at h
              cases hc : get_cached_arima_model getBeh table
                  (ndviModelKey o.md5 g sar (cleanedSeries o.parseNum dates values)) now with
              | some mi =>
                rw [hc] at h
                first
                  | exact (forecastTail_ok o mi.1 _ periods _ true r h).1
                  | exact (forecastTail_ok o mi.1 _ periods _ true r h).2
              | none =>
                rw [hc] at h
                cases hf : (if sar then o.fitSarima (cleanedSeries o.parseNum dates values)
                    else o.fitArima (cleanedSeries o.parseNum dates values)) with
                | error e => rw [hf] at h; cases h
                | ok ma =>
                  rw [hf] at h
                  first
                    | exact (forecastTail_ok o ma.1 _ periods _ false r h).1
                    | exact (forecastTail_ok o ma.1 _ periods _ false r h).2

/-- C4 counterexample: a successful forecast over a series ending
2023-01-15 with `periods=1` returns the forecast date `2023-02-28` — a
month-END timestamp (`freq='M'`), not the month-start the claim
specifies, and not one month after the last input date. -/
theorem C4_counterexample :
    (forecast_ndvi testOracle .ok .ok [] 0 [.good ⟨2023, 1, 15⟩] [.num 1] 1 none false).1 =
      .returned (.okD ⟨["2023-02-28"], [0], [0], [0],
        .struct ⟨"ARIMA", (1, 1, 1), none, 0, none⟩, false⟩) ∧
    (monthEnd 2023 2).d ≠ 1 := by
  exact ⟨rfl, by decide⟩

/-- C4 (amended): for every successful forecast with `periods = P ≥ 0`,
`forecast_dates` are exactly `P` consecutive calendar month-END
timestamps, beginning with the end of the month that follows the month
of the (first-stage filtered) series' last date. -/
theorem C4_amended_dates_are_month_ends
    (o : EngineOracle) (getBeh putBeh : DbBehavior)
    (table : List ModelRow) (now : Int)
    (dates : List DateVal) (values : List RawVal)
    (periods : Int) (gh : Option String) (sar : Bool) (r : NdviResult)
    (h : (forecast_ndvi o getBeh putBeh table now dates values periods gh sar).1 =
      .returned (.okD r)) :
    0 ≤ periods ∧
    ∃ ds, toDatetime ((stage1 dates values).map Prod.fst) = .ok ds ∧
      r.forecast_dates =
        (monthEndSeq (nextMonth (ds.getLastD ⟨0, 1, 1⟩).y (ds.getLastD ⟨0, 1, 1⟩).m).1
          (nextMonth (ds.getLastD ⟨0, 1, 1⟩).y (ds.getLastD ⟨0, 1, 1⟩).m).2
          periods.toNat).map dateStr ∧
      r.forecast_dates.length = periods.toNat := by
  rw [forecast_ndvi_fst] at h
  cases hb : (forecastNdviBody o getBeh putBeh table now dates values periods gh sar).1 with
  | error e =>
    rw [hb] at h
    cases h
  | ok rr =>
    rw [hb] at h
    cases rr with
    | errD m => cases h
    | okD rr2 =>
      have hrr : rr2 = r := by
        cases h
        rfl
      subst hrr
      obtain ⟨hper, ds, hds, hdates⟩ := forecastNdviBody_ok_dates o getBeh putBeh table now
        dates values periods gh sar rr2 hb
      refine ⟨hper, ds, hds, hdates, ?_⟩
      rw [hdates, List.length_map]
      exact monthEndSeq_length periods.toNat _ _

/-- Witness for the amended C4 at the concrete run of the
counterexample input. -/
theorem C4_amended_witness :
    0 ≤ (1 : Int) ∧
    ∃ ds, toDatetime ((stage1 [.good ⟨2023, 1, 15⟩] [.num 1]).map Prod.fst) = .ok ds ∧
      (["2023-02-28"] : List String) =
        (monthEndSeq (nextMonth (ds.getLastD ⟨0, 1, 1⟩).y (ds.getLastD ⟨0, 1, 1⟩).m).1
          (nextMonth (ds.getLastD ⟨0, 1, 1⟩).y (ds.getLastD ⟨0, 1, 1⟩).m).2
          (1 : Int).toNat).map dateStr ∧
      (["2023-02-28"] : List String).length = (1 : Int).toNat :=
  C4_amended_dates_are_month_ends testOracle .ok .ok [] 0
    [.good ⟨2023, 1, 15⟩] [.num 1] 1 none false
    ⟨["2023-02-28"], [0], [0], [0], .struct ⟨"ARIMA", (1, 1, 1), none, 0, none⟩, false⟩
    rfl

/-! ## Claim C10 -/

/-- C10: both engine entry points return a dict for every input
whatsoever — malformed dicts, empty or non-numeric series, failing fits,
raising cache clients — because their entire bodies run inside
`try/except Exception`; the `raised` outcome is never produced. -/
theorem C10_engine_total_never_raises
    (o : EngineOracle) (g p : DbBehavior) (table : List ModelRow) (now : Int)
    (dates : List DateVal) (values : List RawVal) (periods : Int)
    (gh : Option String) (sar : Bool)
    (hw : WeatherInput) (var0 : String) (lk : Option String) :
    (∃ r, (forecast_ndvi o g p table now dates values periods gh sar).1 = .returned r) ∧
    (∃ r, (forecast_weather o g p table now hw var0 periods lk sar).1 = .returned r) := by
  constructor
  · unfold forecast_ndvi
    rcases hb : forecastNdviBody o g p table now dates values periods gh sar with ⟨fst, snd⟩
    cases fst with
    | ok r => exact ⟨r, by rfl⟩
    | error e => exact ⟨.errD e, by rfl⟩
  · unfold forecast_weather
    rcases hb : forecastWeatherBody o g p table now hw var0 periods lk sar with ⟨fst, snd⟩
    cases fst with
    | ok r => exact ⟨r, by rfl⟩
    | error e => exact ⟨.errD e, by rfl⟩

/-! ## Claim C5 -/

theorem get_model_no_match (table : List ModelRow) (key : String) (now : Int)
    (h : ∀ r ∈ table, r.model_key ≠ key) :
    get_cached_arima_model .ok table key now = none := by
  unfold get_cached_arima_model
  have hnil : table.filter
      (fun r => r.model_key == key && decide (r.created_at > now - modelTTL)) = [] := by
    rw [List.filter_eq_nil_iff]
    intro r hr
    simp [h r hr]
  simp [hnil, pickLatestBy]

theorem get_model_fresh_hit (table : List ModelRow) (key : String)
    (m : Nat) (infoJson : String) (now1 now2 : Int)
    (hmiss : ∀ r ∈ table, r.model_key ≠ key)
    (httl : now2 - now1 < modelTTL) :
    get_cached_arima_model .ok
        (table ++ [⟨key, "arima", .wellFormed m, infoJson, now1⟩]) key now2 =
      some (m, infoJson) := by
  unfold get_cached_arima_model
  have hfil : (table ++ [(⟨key, "arima", .wellFormed m, infoJson, now1⟩ : ModelRow)]).filter
      (fun r => r.model_key == key && decide (r.created_at > now2 - modelTTL)) =
      [⟨key, "arima", .wellFormed m, infoJson, now1⟩] := by
    rw [List.filter_append]
    have h1 : table.filter
        (fun r => r.model_key == key && decide (r.created_at > now2 - modelTTL)) = [] := by
      rw [List.filter_eq_nil_iff]
      intro r hr
      simp [hmiss r hr]
    rw [h1]
    simp only [List.nil_append, List.filter]
    have : ((⟨key, "arima", .wellFormed m, infoJson, now1⟩ : ModelRow).model_key == key &&
        decide ((⟨key, "arima", .wellFormed m, infoJson, now1⟩ : ModelRow).created_at >
          now2 - modelTTL)) = true := by
      simp
      omega
    rw [this]
  simp [hfil, pickLatestBy, pickStep]

theorem forecastTail_eval (o : EngineOracle) (model : Nat) (info : ModelInfoRepr)
    (periods : Int) (lastDate : YMD) (fc : Bool)
    (tri : List Rat × List Rat × List Rat)
    (hfc : o.getForecast model periods = .ok tri) (hper : ¬ periods < 0) :
    forecastTail o model info periods lastDate fc =
      .ok (.okD ⟨(dateRangeMonthEnd (addMonthClamped lastDate) periods.toNat).map dateStr,
        tri.1, tri.2.1, tri.2.2, info, fc⟩) := by
  unfold forecastTail
  rw [hfc]
  simp [bind, Except.bind, if_neg hper, pure, Except.pure]

theorem forecast_ndvi_miss (o : EngineOracle) (table : List ModelRow) (now : Int)
    (dates : List DateVal) (values : List RawVal) (periods : Int)
    (gh : String) (sar : Bool) (ds : List YMD) (m : Nat) (a : Rat)
    (tri : List Rat × List Rat × List Rat)
    (hgh : gh ≠ "")
    (h1 : stage1 dates values ≠ [])
    (hds : toDatetime ((stage1 dates values).map Prod.fst) = .ok ds)
    (h2 : cleanedSeries o.parseNum dates values ≠ [])
    (hget : get_cached_arima_model .ok table
      (ndviModelKey o.md5 gh sar (cleanedSeries o.parseNum dates values)) now = none)
    (hfit : (if sar then o.fitSarima (cleanedSeries o.parseNum dates values)
        else o.fitArima (cleanedSeries o.parseNum dates values)) = .ok (m, a))
    (hfc : o.getForecast m periods = .ok tri)
    (hper : ¬ periods < 0) :
    forecast_ndvi o .ok .ok table now dates values periods (some gh) sar =
      (.returned (.okD ⟨(dateRangeMonthEnd (addMonthClamped (ds.getLastD ⟨0, 1, 1⟩))
          periods.toNat).map dateStr,
        tri.1, tri.2.1, tri.2.2, .struct (fitModelInfo sar a), false⟩),
       table ++ [⟨ndviModelKey o.md5 gh sar (cleanedSeries o.parseNum dates values),
          "arima", .wellFormed m,
          o.toJson (fitModelInfo sar a), now⟩]) := by
  unfold forecast_ndvi forecastNdviBody
  simp only [if_neg h1]
  rw [hds]
  try dsimp only
  simp only [if_neg h2]
  try dsimp only
  rw [if_pos hgh]
  try dsimp only
  rw [hget]
  try dsimp only
  rw [hfit]
  try dsimp only
  rw [forecastTail_eval o m (.struct (fitModelInfo sar a)) periods
    (ds.getLastD ⟨0, 1, 1⟩) false tri hfc hper]
  rfl

theorem forecast_ndvi_hit (o : EngineOracle) (table : List ModelRow) (now : Int)
    (dates : List DateVal) (values : List RawVal) (periods : Int)
    (gh : String) (sar : Bool) (ds : List YMD) (mi : Nat × String)
    (tri : List Rat × List Rat × List Rat)
    (hgh : gh ≠ "")
    (h1 : stage1 dates values ≠ [])
    (hds : toDatetime ((stage1 dates values).map Prod.fst) = .ok ds)
    (h2 : cleanedSeries o.parseNum dates values ≠ [])
    (hget : get_cached_arima_model .ok table
      (ndviModelKey o.md5 gh sar (cleanedSeries o.parseNum dates values)) now = some mi)
    (hfc : o.getForecast mi.1 periods = .ok tri)
    (hper : ¬ periods < 0) :
    forecast_ndvi o .ok .ok table now dates values periods (some gh) sar =
      (.returned (.okD ⟨(dateRangeMonthEnd (addMonthClamped (ds.getLastD ⟨0, 1, 1⟩))
          periods.toNat).map dateStr,
        tri.1, tri.2.1, tri.2.2, .raw mi.2, true⟩), table) := by
  unfold forecast_ndvi forecastNdviBody
  simp only [if_neg h1]
  rw [hds]
  try dsimp only
  simp only [if_neg h2]
  try dsimp only
  rw [if_pos hgh]
  try dsimp only
  rw [hget]
  try dsimp only
  rw [forecastTail_eval o mi.1 (.raw mi.2) periods
    (ds.getLastD ⟨0, 1, 1⟩) true tri hfc hper]

/-- C5: two successive forecasts with the identical series and the same
`geometry_hash`, against a cache with no prior entry for the derived
model key and within the model TTL: the first call reports
`cached=false`, fits and stores the model; the second call reports
`cached=true`, reuses the stored model, and produces identical point
forecast values (and identical forecast dates). -/
theorem C5_cache_reuse
    (o : EngineOracle) (table : List ModelRow) (now1 now2 : Int)
    (dates : List DateVal) (values : List RawVal) (periods : Int)
    (gh : String) (sar : Bool) (ds : List YMD) (m : Nat) (a : Rat)
    (tri : List Rat × List Rat × List Rat)
    (hgh : gh ≠ "")
    (h1 : stage1 dates values ≠ [])
    (hds : toDatetime ((stage1 dates values).map Prod.fst) = .ok ds)
    (h2 : cleanedSeries o.parseNum dates values ≠ [])
    (hmiss : ∀ r ∈ table, r.model_key ≠
      ndviModelKey o.md5 gh sar (cleanedSeries o.parseNum dates values))
    (hfit : (if sar then o.fitSarima (cleanedSeries o.parseNum dates values)
        else o.fitArima (cleanedSeries o.parseNum dates values)) = .ok (m, a))
    (hfc : o.getForecast m periods = .ok tri)
    (hper : ¬ periods < 0)
    (httl : now2 - now1 < modelTTL) :
    ∃ r1 t1 r2 t2,
      forecast_ndvi o .ok .ok table now1 dates values periods (some gh) sar =
        (.returned (.okD r1), t1) ∧
      forecast_ndvi o .ok .ok t1 now2 dates values periods (some gh) sar =
        (.returned (.okD r2), t2) ∧
      r1.cached = false ∧ r2.cached = true ∧
      r2.forecast_values = r1.forecast_values ∧
      r2.forecast_dates = r1.forecast_dates := by
  refine ⟨_, _, _, _,
    forecast_ndvi_miss o table now1 dates values periods gh sar ds m a tri
      hgh h1 hds h2 (get_model_no_match table _ now1 hmiss) hfit hfc hper,
    forecast_ndvi_hit o _ now2 dates values periods gh sar ds
      (m, o.toJson (fitModelInfo sar a)) tri hgh h1 hds h2
      (get_model_fresh_hit table _ m _ now1 now2 hmiss httl) hfc hper,
    rfl, rfl, rfl, rfl⟩

/-- Witness for C5 on a concrete two-call run over an empty cache. -/
theorem C5_witness :
    ∃ r1 t1 r2 t2,
      forecast_ndvi testOracle .ok .ok [] 0
          [.good ⟨2023, 1, 15⟩] [.num 1] 1 (some "g") false =
        (.returned (.okD r1), t1) ∧
      forecast_ndvi testOracle .ok .ok t1 1
          [.good ⟨2023, 1, 15⟩] [.num 1] 1 (some "g") false =
        (.returned (.okD r2), t2) ∧
      r1.cached = false ∧ r2.cached = true ∧
      r2.forecast_values = r1.forecast_values ∧
      r2.forecast_dates = r1.forecast_dates :=
  C5_cache_reuse testOracle [] 0 1 [.good ⟨2023, 1, 15⟩] [.num 1] 1 "g" false
    [⟨2023, 1, 15⟩] 1 0 ([0], [0], [0])
    (by decide) (by decide) rfl (by decide)
    (by intro r hr; cases hr)
    rfl rfl (by decide) (by decide)

end LandCare